import Mathlib

/-!
Shallow embedding of the edge control loop in `main.py` (Raspberry Pi
environmental monitoring node).  Python floats are modelled as `Rat`,
serial bytes as `Fin 256`, the process-global mutable variables as the
fields of an explicit `State` record, and each fallible I/O boundary
(DHT sensor, serial particulate sensor, HTTP command fetch, HTTP
telemetry post) as an explicit input describing the outcome that the
environment produced for that call.  One iteration of `main_loop` is the
function `cycle`.
-/

set_option autoImplicit false

namespace RaspberryPi

/-- One serial byte, as delivered by `ser.read`. -/
abbrev Byte := Fin 256

/-- Auto fan temperature threshold, `AUTO_FAN_TEMP_THRESHOLD = 30.0`
(main.py line 33). -/
def AUTO_FAN_TEMP_THRESHOLD : Rat := 30

/-- Auto fan PM2.5 threshold, `AUTO_FAN_PM25_THRESHOLD = 75`
(main.py line 34). -/
def AUTO_FAN_PM25_THRESHOLD : Nat := 75

/-- The three real indicator output pins of `LED_PINS` (the `off` entry
maps to pin `-1` and is skipped by every loop over the pins), each
modelled by its boolean output level. -/
structure LedState where
  good : Bool
  moderate : Bool
  bad : Bool
deriving DecidableEq, Repr

/-- The process-wide mutable state of `main.py`: the module-level globals
`auto_fan_enabled`, `led_enabled`, `last_sent_temp`, `last_sent_humid`,
`last_sent_pm2_5` (lines 24-30), together with the persistent hardware
output levels of the fan pin and the three indicator pins. -/
structure State where
  auto_fan_enabled : Bool
  led_enabled : Bool
  fan_on : Bool
  led : LedState
  last_sent_temp : Option Rat
  last_sent_humid : Option Rat
  last_sent_pm2_5 : Option Nat
deriving DecidableEq, Repr

/-- State after `setup_gpio` and module initialisation: both feature
toggles default to enabled, every output pin is driven LOW, and no
metric has been sent yet. -/
def initState : State :=
  { auto_fan_enabled := true
    led_enabled := true
    fan_on := false
    led := ⟨false, false, false⟩
    last_sent_temp := none
    last_sent_humid := none
    last_sent_pm2_5 := none }

/-- `read_dht11` (main.py lines 57-61): when the device handle is missing
or the read raises, both values degrade to `None`; otherwise both floats
are returned.  The environment input `Option (Rat × Rat)` is the outcome
of the transducer access. -/
def read_dht11 : Option (Rat × Rat) → Option Rat × Option Rat
  | none => (none, none)
  | some (t, h) => (some t, some h)

/-- The possible outcomes of one serial access in `read_pms7003`:
missing device handle (`ser is None`), an exception during the access,
or a buffer holding the listed bytes (`ser.in_waiting` is its length and
`ser.read(32)` returns its first 32 bytes). -/
inductive SerialInput
  | noDevice
  | readError
  | buffered (bytes : List Byte)
deriving DecidableEq, Repr

/-- `read_pms7003` (main.py lines 63-71): requires at least 32 buffered
bytes, reads a 32-byte block, accepts it only when it starts with the
magic marker `0x42 0x4d`, and then decodes `data[12:14]` as a big-endian
16-bit unsigned integer; every other case yields `None`. -/
def read_pms7003 : SerialInput → Option Nat
  | .noDevice => none
  | .readError => none
  | .buffered bytes =>
      if 32 ≤ bytes.length then
        if (bytes.take 32).getD 0 0 = (0x42 : Byte) ∧
            (bytes.take 32).getD 1 0 = (0x4d : Byte) then
          some (256 * ((bytes.take 32).getD 12 0).val +
            ((bytes.take 32).getD 13 0).val)
        else none
      else none

/-- `read_mq135` (main.py line 73): a direct `GPIO.input` of the digital
gas pin, `1` when the line is high and `0` when it is low, with no
failure path. -/
def read_mq135 (lineHigh : Bool) : Nat :=
  if lineHigh then 1 else 0

/-- `set_led` (main.py lines 86-93): `off` drives every real pin LOW;
any other status drives each pin HIGH exactly when its name equals the
status, LOW otherwise. -/
def set_led (status : String) : LedState :=
  if status = "off" then ⟨false, false, false⟩
  else ⟨decide (status = "good"), decide (status = "moderate"),
        decide (status = "bad")⟩

/-- Number of indicator pins currently driven high. -/
def led_active_count (l : LedState) : Nat :=
  (if l.good then 1 else 0) + (if l.moderate then 1 else 0) +
    (if l.bad then 1 else 0)

/-- One control directive as decoded from the JSON response: each field
is read with `.get(...)`, so a missing key yields `None`. -/
structure ControlCommand where
  target : Option String
  action : Option String
  source : Option String
deriving DecidableEq, Repr

/-- The body of a 200 response to the control fetch: either it fails to
decode (or has an unusable shape, raising inside the `try`), or it is a
list of directives, newest first. -/
inductive Body
  | malformed
  | parsed (commands : List ControlCommand)
deriving DecidableEq, Repr

/-- Outcome of the `requests.get(CONTROL_API_URL)` call: either the
transport raised (`RequestException`), or a response arrived with the
given status code and body. -/
inductive FetchResult
  | transportError
  | response (status : Nat) (body : Body)
deriving DecidableEq, Repr

/-- The directive dispatch of `apply_latest_commands` (main.py lines
122-129), applied to the single newest command: `led` sets
`led_enabled`, `autoFan` sets `auto_fan_enabled`, and a `fan` directive
whose source is `"user"` disables auto mode and drives the fan pin at
once; any other target is a no-op. -/
def apply_command (c : ControlCommand) (s : State) : State :=
  if c.target = some "led" then
    { s with led_enabled := decide (c.action = some "on") }
  else if c.target = some "autoFan" then
    { s with auto_fan_enabled := decide (c.action = some "enable") }
  else if c.target = some "fan" ∧ c.source = some "user" then
    { s with auto_fan_enabled := false
             fan_on := decide (c.action = some "on") }
  else s

/-- `apply_latest_commands` (main.py lines 100-134): a transport error,
a non-200 status, a malformed body and an empty command list all return
with the state untouched (every exception is caught inside the
function); otherwise only `commands[0]`, the newest directive, is
interpreted. -/
def apply_latest_commands (r : FetchResult) (s : State) : State :=
  match r with
  | .transportError => s
  | .response status body =>
      if status ≠ 200 then s
      else
        match body with
        | .malformed => s
        | .parsed [] => s
        | .parsed (c :: _) => apply_command c s

/-- Outcome of one `requests.post(BACKEND_API_URL, ...)` call inside
`send_to_backend` (main.py lines 75-84): status 201, some other status,
or a raised `RequestException`.  The function only prints in each case
and returns `None`, so its caller never observes the outcome. -/
inductive SendOutcome
  | created
  | badStatus (code : Nat)
  | requestError
deriving DecidableEq, Repr

/-- The `value` field of a telemetry payload before `str(...)`
conversion: a float for temperature/humidity, an int for pm25. -/
inductive SensorValue
  | fl (x : Rat)
  | iv (n : Nat)
deriving DecidableEq, Repr

/-- One POST made by `send_to_backend`: the `sensorType` payload field,
the value, and the outcome the network produced for this call. -/
structure TelemetryCall where
  sensorType : String
  value : SensorValue
  outcome : SendOutcome
deriving DecidableEq, Repr

/-- One `if <reading> is not None and <last_sent> != <reading>:` block of
main.py lines 151-159 for a single metric: when the fresh reading is
present and differs from the stored value, `send_to_backend` is called
(producing one `TelemetryCall` with the environment's outcome) and the
stored value is then assigned the reading unconditionally — the
assignment does not inspect the outcome, since `send_to_backend`
returns nothing. -/
def send_metric {α : Type} [DecidableEq α] (name : String)
    (lastSent reading : Option α) (toVal : α → SensorValue)
    (outcome : SendOutcome) : Option α × List TelemetryCall :=
  match reading with
  | none => (lastSent, [])
  | some v =>
      if lastSent ≠ some v then (some v, [⟨name, toVal v, outcome⟩])
      else (lastSent, [])

/-- The fan branch of the loop body (main.py lines 163-166):
`is_hot or is_dusty` with the two thresholds, each conjunct guarded by
presence of its reading. -/
def fan_auto_target (temp : Option Rat) (pm2_5 : Option Nat) : Bool :=
  (match temp with
   | some t => decide (AUTO_FAN_TEMP_THRESHOLD ≤ t)
   | none => false) ||
  (match pm2_5 with
   | some p => decide (AUTO_FAN_PM25_THRESHOLD ≤ p)
   | none => false)

/-- The status string passed to `set_led` by the indicator branch of the
loop body (main.py lines 168-174): with the indicator disabled the loop
calls `set_led('off')`; enabled, an absent pm2.5 gives `off`, then the
`good` / `moderate` / `bad` chain of line 170-172 is evaluated in
order. -/
def indicator_choice (led_enabled : Bool) (pm2_5 : Option Nat)
    (gas : Nat) : String :=
  if led_enabled then
    match pm2_5 with
    | none => "off"
    | some p =>
        if gas = 0 ∧ p < 35 then "good"
        else if gas = 0 ∨ p < 75 then "moderate"
        else "bad"
  else "off"

/-- Everything the environment decides during one loop iteration: the
outcome of the command fetch, of the three sensor accesses, and of each
telemetry POST the loop may issue. -/
structure CycleEnv where
  fetch : FetchResult
  dht : Option (Rat × Rat)
  serial : SerialInput
  gasHigh : Bool
  outTemp : SendOutcome
  outHumid : SendOutcome
  outPm : SendOutcome
deriving DecidableEq, Repr

/-- One iteration of `main_loop` (main.py lines 141-179): apply the
newest control command, read the three sensors, send each changed
metric, run the auto-fan logic, set the indicator, and return the new
state together with the telemetry calls issued this cycle. -/
def cycle (env : CycleEnv) (s : State) : State × List TelemetryCall :=
  let s1 := apply_latest_commands env.fetch s
  let th := read_dht11 env.dht
  let pm2_5 := read_pms7003 env.serial
  let gas := read_mq135 env.gasHigh
  let rt := send_metric "temperature" s1.last_sent_temp th.1
              SensorValue.fl env.outTemp
  let rh := send_metric "humidity" s1.last_sent_humid th.2
              SensorValue.fl env.outHumid
  let rp := send_metric "pm25" s1.last_sent_pm2_5 pm2_5
              SensorValue.iv env.outPm
  let s2 := { s1 with last_sent_temp := rt.1
                      last_sent_humid := rh.1
                      last_sent_pm2_5 := rp.1 }
  let s3 := if s2.auto_fan_enabled then
              { s2 with fan_on := fan_auto_target th.1 pm2_5 }
            else s2
  let s4 := { s3 with led := set_led (indicator_choice s3.led_enabled pm2_5 gas) }
  (s4, rt.2 ++ rh.2 ++ rp.2)

/-- A well-formed 32-byte PMS7003 frame whose pm2.5 concentration field
(bytes 12-13, big endian) decodes to 7. -/
def goodFrame : List Byte :=
  0x42 :: 0x4d :: List.replicate 10 0 ++ [0, 7] ++ List.replicate 18 0

/-- A concrete cycle environment: no pending command, DHT read fails,
a valid particulate frame decoding to 7 is buffered, and the pm25
telemetry POST fails with a transport error. -/
def c1Env : CycleEnv :=
  { fetch := .response 200 (.parsed [])
    dht := none
    serial := .buffered goodFrame
    gasHigh := false
    outTemp := .created
    outHumid := .created
    outPm := .requestError }

/-- A concrete cycle environment: the newest fetched directive is a
user-sourced `fan off` command while the sensors (31 °C) would drive the
fan on under the automatic policy. -/
def c4Env : CycleEnv :=
  { fetch := .response 200 (.parsed
      [⟨some "fan", some "off", some "user"⟩,
       ⟨some "autoFan", some "enable", none⟩])
    dht := some (31, 40)
    serial := .buffered goodFrame
    gasHigh := false
    outTemp := .created
    outHumid := .created
    outPm := .created }

/-! ### Helper lemmas -/

/-- `apply_command` only touches the toggles and the fan pin, never the
stored last-sent values. -/
theorem apply_command_last_sent (c : ControlCommand) (s : State) :
    (apply_command c s).last_sent_temp = s.last_sent_temp ∧
    (apply_command c s).last_sent_humid = s.last_sent_humid ∧
    (apply_command c s).last_sent_pm2_5 = s.last_sent_pm2_5 := by
  unfold apply_command
  split_ifs <;> simp

/-- Fetching and interpreting control commands never touches the stored
last-sent values. -/
theorem apply_latest_commands_last_sent (r : FetchResult) (s : State) :
    (apply_latest_commands r s).last_sent_temp = s.last_sent_temp ∧
    (apply_latest_commands r s).last_sent_humid = s.last_sent_humid ∧
    (apply_latest_commands r s).last_sent_pm2_5 = s.last_sent_pm2_5 := by
  rcases r with _ | ⟨status, _ | (_ | ⟨c, rest⟩)⟩
  · exact ⟨rfl, rfl, rfl⟩
  · simp only [apply_latest_commands]
    split_ifs <;> exact ⟨rfl, rfl, rfl⟩
  · simp only [apply_latest_commands]
    split_ifs <;> exact ⟨rfl, rfl, rfl⟩
  · simp only [apply_latest_commands]
    split_ifs
    · exact ⟨rfl, rfl, rfl⟩
    · exact apply_command_last_sent c s

theorem apply_latest_commands_last_sent_temp (r : FetchResult) (s : State) :
    (apply_latest_commands r s).last_sent_temp = s.last_sent_temp :=
  (apply_latest_commands_last_sent r s).1

theorem apply_latest_commands_last_sent_humid (r : FetchResult) (s : State) :
    (apply_latest_commands r s).last_sent_humid = s.last_sent_humid :=
  (apply_latest_commands_last_sent r s).2.1

theorem apply_latest_commands_last_sent_pm2_5 (r : FetchResult) (s : State) :
    (apply_latest_commands r s).last_sent_pm2_5 = s.last_sent_pm2_5 :=
  (apply_latest_commands_last_sent r s).2.2

/-- The stored value produced by one telemetry block ignores the send
outcome entirely: a present reading always ends up stored. -/
theorem send_metric_fst {α : Type} [DecidableEq α] (name : String)
    (lastSent reading : Option α) (toVal : α → SensorValue)
    (o : SendOutcome) :
    (send_metric name lastSent reading toVal o).1 =
      match reading with
      | none => lastSent
      | some v => some v := by
  cases reading with
  | none => rfl
  | some v =>
      by_cases h : lastSent = some v
      · simp [send_metric, h]
      · simp [send_metric, h]

/-- A call appears in one telemetry block for a given name exactly when
the reading is present and differs from the stored value. -/
theorem send_metric_exists_name {α : Type} [DecidableEq α]
    (name n' : String) (lastSent reading : Option α)
    (toVal : α → SensorValue) (o : SendOutcome) :
    (∃ c ∈ (send_metric name lastSent reading toVal o).2,
        c.sensorType = n') ↔
      (name = n' ∧ ∃ v, reading = some v ∧ lastSent ≠ some v) := by
  cases reading with
  | none => simp [send_metric]
  | some v =>
      by_cases h : lastSent = some v
      · simp [send_metric, h]
      · simp [send_metric, h]

theorem send_metric_sensorType {α : Type} [DecidableEq α]
    (name : String) (lastSent reading : Option α)
    (toVal : α → SensorValue) (o : SendOutcome) :
    ∀ c ∈ (send_metric name lastSent reading toVal o).2,
      c.sensorType = name := by
  cases reading with
  | none => simp [send_metric]
  | some v =>
      by_cases h : lastSent = some v
      · simp [send_metric, h]
      · simp [send_metric, h]

/-- The telemetry calls of one cycle, expressed over the pre-cycle
state (command application never touches the stored last-sent
values). -/
theorem cycle_calls (env : CycleEnv) (s : State) :
    (cycle env s).2 =
      (send_metric "temperature" s.last_sent_temp (read_dht11 env.dht).1
        SensorValue.fl env.outTemp).2 ++
      (send_metric "humidity" s.last_sent_humid (read_dht11 env.dht).2
        SensorValue.fl env.outHumid).2 ++
      (send_metric "pm25" s.last_sent_pm2_5 (read_pms7003 env.serial)
        SensorValue.iv env.outPm).2 := by
  simp [cycle, apply_latest_commands_last_sent_temp,
    apply_latest_commands_last_sent_humid,
    apply_latest_commands_last_sent_pm2_5]

/-- The stored last-sent values after one cycle, expressed over the
pre-cycle state. -/
theorem cycle_last_sent (env : CycleEnv) (s : State) :
    (cycle env s).1.last_sent_temp =
      (send_metric "temperature" s.last_sent_temp (read_dht11 env.dht).1
        SensorValue.fl env.outTemp).1 ∧
    (cycle env s).1.last_sent_humid =
      (send_metric "humidity" s.last_sent_humid (read_dht11 env.dht).2
        SensorValue.fl env.outHumid).1 ∧
    (cycle env s).1.last_sent_pm2_5 =
      (send_metric "pm25" s.last_sent_pm2_5 (read_pms7003 env.serial)
        SensorValue.iv env.outPm).1 := by
  refine ⟨?_, ?_, ?_⟩ <;>
    simp [cycle, apply_ite, apply_latest_commands_last_sent_temp,
      apply_latest_commands_last_sent_humid,
      apply_latest_commands_last_sent_pm2_5]

/-- `read_pms7003` on a buffer, with the `take 32` removed: every byte
inspected lies at an index below 32. -/
theorem read_pms7003_buffered (bytes : List Byte) :
    read_pms7003 (.buffered bytes) =
      if 32 ≤ bytes.length then
        if bytes.getD 0 0 = (0x42 : Byte) ∧
            bytes.getD 1 0 = (0x4d : Byte) then
          some (256 * (bytes.getD 12 0).val + (bytes.getD 13 0).val)
        else none
      else none := by
  have e0 : (bytes.take 32).getD 0 0 = bytes.getD 0 0 := by
    simp [List.getD_eq_getElem?_getD, List.getElem?_take]
  have e1 : (bytes.take 32).getD 1 0 = bytes.getD 1 0 := by
    simp [List.getD_eq_getElem?_getD, List.getElem?_take]
  have e12 : (bytes.take 32).getD 12 0 = bytes.getD 12 0 := by
    simp [List.getD_eq_getElem?_getD, List.getElem?_take]
  have e13 : (bytes.take 32).getD 13 0 = bytes.getD 13 0 := by
    simp [List.getD_eq_getElem?_getD, List.getElem?_take]
  simp only [read_pms7003, e0, e1, e12, e13]

/-- The auto fan condition holds exactly when a present temperature
reaches the temperature threshold or a present pm2.5 reaches the dust
threshold. -/
theorem fan_auto_target_iff (temp : Option Rat) (pm2_5 : Option Nat) :
    fan_auto_target temp pm2_5 = true ↔
      (∃ t, temp = some t ∧ AUTO_FAN_TEMP_THRESHOLD ≤ t) ∨
      (∃ p, pm2_5 = some p ∧ AUTO_FAN_PM25_THRESHOLD ≤ p) := by
  cases temp <;> cases pm2_5 <;> simp [fan_auto_target]

/-! ### Claim theorems -/

/-- C2: with the indicator disabled the level is `off` regardless of
sensor readings; with it enabled, an absent pm2.5 forces `off`, and for
a present pm2.5 the level is `good` iff `gasDigital = 0` and `pm25 < 35`,
`bad` iff `gasDigital = 1` and `pm25 ≥ 75`, and `moderate` in every
remaining case. -/
theorem C2_indicator_quantization (enabled : Bool) (pm2_5 : Option Nat)
    (lineHigh : Bool) :
    (enabled = false →
      indicator_choice enabled pm2_5 (read_mq135 lineHigh) = "off") ∧
    (pm2_5 = none →
      indicator_choice enabled pm2_5 (read_mq135 lineHigh) = "off") ∧
    (∀ p, enabled = true → pm2_5 = some p →
      ((indicator_choice enabled pm2_5 (read_mq135 lineHigh) = "good" ↔
          read_mq135 lineHigh = 0 ∧ p < 35) ∧
       (indicator_choice enabled pm2_5 (read_mq135 lineHigh) = "bad" ↔
          read_mq135 lineHigh = 1 ∧ 75 ≤ p) ∧
       (indicator_choice enabled pm2_5 (read_mq135 lineHigh) = "moderate" ↔
          ¬(read_mq135 lineHigh = 0 ∧ p < 35) ∧
          ¬(read_mq135 lineHigh = 1 ∧ 75 ≤ p)))) := by
  refine ⟨fun he => by simp [indicator_choice, he], ?_, ?_⟩
  · intro hp
    cases enabled <;> simp [indicator_choice, hp]
  · intro p he hp
    subst he hp
    cases lineHigh <;>
      by_cases h35 : p < 35 <;> by_cases h75 : p < 75 <;>
        simp [indicator_choice, read_mq135, h35, h75] <;> omega

/-- C2 witness: concrete evaluations of the quantization at
`gasDigital = 1`, `pm25 = 80`. -/
theorem C2_witness :
    indicator_choice true (some 80) (read_mq135 true) = "bad" ↔
      read_mq135 true = 1 ∧ 75 ≤ 80 :=
  ((C2_indicator_quantization true (some 80) true).2.2 80 rfl rfl).2.1

/-- C9: after every call of the indicator driver at most one level pin
is high; `off` clears all pins, and each named level lights exactly its
own pin. -/
theorem C9_indicator_exclusive (status : String) :
    led_active_count (set_led status) ≤ 1 ∧
    set_led "off" = ⟨false, false, false⟩ ∧
    set_led "good" = ⟨true, false, false⟩ ∧
    set_led "moderate" = ⟨false, true, false⟩ ∧
    set_led "bad" = ⟨false, false, true⟩ := by
  refine ⟨?_, by decide, by decide, by decide, by decide⟩
  by_cases ho : status = "off"
  · simp [set_led, led_active_count, ho]
  · by_cases hg : status = "good" <;>
      by_cases hm : status = "moderate" <;>
        by_cases hb : status = "bad" <;>
          simp_all [set_led, led_active_count]

/-- C8: `read_pms7003` yields a value only for a buffered block of at
least 32 bytes starting with `0x42 0x4d`, in which case the value is the
big-endian 16-bit integer at offset 12; a missing device, a raised read,
a short buffer or a wrong marker all yield `none`. -/
theorem C8_pms_framing :
    read_pms7003 .noDevice = none ∧
    read_pms7003 .readError = none ∧
    (∀ bytes : List Byte, bytes.length < 32 →
        read_pms7003 (.buffered bytes) = none) ∧
    (∀ bytes : List Byte,
        ¬(bytes.getD 0 0 = 0x42 ∧ bytes.getD 1 0 = 0x4d) →
        read_pms7003 (.buffered bytes) = none) ∧
    (∀ bytes : List Byte, 32 ≤ bytes.length →
        bytes.getD 0 0 = 0x42 → bytes.getD 1 0 = 0x4d →
        read_pms7003 (.buffered bytes) =
          some (256 * (bytes.getD 12 0).val + (bytes.getD 13 0).val)) := by
  refine ⟨rfl, rfl, ?_, ?_, ?_⟩
  · intro bytes hlen
    rw [read_pms7003_buffered, if_neg (by omega)]
  · intro bytes hmark
    by_cases hlen : 32 ≤ bytes.length
    · rw [read_pms7003_buffered, if_pos hlen, if_neg hmark]
    · rw [read_pms7003_buffered, if_neg hlen]
  · intro bytes hlen h0 h1
    rw [read_pms7003_buffered, if_pos hlen, if_pos ⟨h0, h1⟩]

/-- C8 witness: the canonical frame decodes to 7, and a frame with a
wrong first marker byte is rejected. -/
theorem C8_witness :
    read_pms7003 (.buffered goodFrame) =
      some (256 * ((goodFrame.getD 12 0 : Byte)).val +
        ((goodFrame.getD 13 0 : Byte)).val) :=
  (C8_pms_framing).2.2.2.2 goodFrame (by decide) (by decide) (by decide)

/-- C3: when auto fan is enabled after command application, the cycle
drives the fan on exactly when a present temperature reaches 30.0 or a
present pm2.5 reaches 75; when it is disabled, the cycle leaves the fan
pin at its last commanded state. -/
theorem C3_auto_fan_policy (env : CycleEnv) (s : State) :
    ((apply_latest_commands env.fetch s).auto_fan_enabled = true →
      ((cycle env s).1.fan_on = true ↔
        (∃ t, (read_dht11 env.dht).1 = some t ∧
          AUTO_FAN_TEMP_THRESHOLD ≤ t) ∨
        (∃ p, read_pms7003 env.serial = some p ∧
          AUTO_FAN_PM25_THRESHOLD ≤ p))) ∧
    ((apply_latest_commands env.fetch s).auto_fan_enabled = false →
      (cycle env s).1.fan_on = (apply_latest_commands env.fetch s).fan_on) := by
  constructor
  · intro h
    rw [← fan_auto_target_iff]
    simp [cycle, h]
  · intro h
    simp [cycle, h]

/-- C3 witness: in the concrete environment with a failed DHT read and a
pm2.5 of 7, auto fan stays enabled and the fan ends the cycle off. -/
theorem C3_witness :
    (cycle c1Env initState).1.fan_on = true ↔
      (∃ t, (read_dht11 c1Env.dht).1 = some t ∧
        AUTO_FAN_TEMP_THRESHOLD ≤ t) ∨
      (∃ p, read_pms7003 c1Env.serial = some p ∧
        AUTO_FAN_PM25_THRESHOLD ≤ p) :=
  (C3_auto_fan_policy c1Env initState).1 (by decide)

/-- C4: when the newest fetched directive is a user-sourced fan command,
command application disables auto fan and drives the fan pin to match
the action at once, and the whole cycle preserves both: the automatic
policy cannot override the manual command that cycle. -/
theorem C4_manual_override (env : CycleEnv) (s : State)
    (c : ControlCommand) (rest : List ControlCommand)
    (hf : env.fetch = .response 200 (.parsed (c :: rest)))
    (ht : c.target = some "fan") (hs : c.source = some "user") :
    (apply_latest_commands env.fetch s).auto_fan_enabled = false ∧
    (apply_latest_commands env.fetch s).fan_on =
      decide (c.action = some "on") ∧
    (cycle env s).1.auto_fan_enabled = false ∧
    (cycle env s).1.fan_on = decide (c.action = some "on") := by
  have happ : apply_latest_commands env.fetch s =
      { s with auto_fan_enabled := false
               fan_on := decide (c.action = some "on") } := by
    rw [hf]
    simp [apply_latest_commands, apply_command, ht, hs]
  refine ⟨by rw [happ], by rw [happ], ?_, ?_⟩ <;> simp [cycle, happ]

/-- C4 witness: the spec scenario — a user `fan off` directive while the
temperature alone would force the fan on ends the cycle with auto fan
disabled and the fan off. -/
theorem C4_witness :
    (apply_latest_commands c4Env.fetch initState).auto_fan_enabled = false ∧
    (apply_latest_commands c4Env.fetch initState).fan_on =
      decide ((⟨some "fan", some "off", some "user"⟩ :
        ControlCommand).action = some "on") ∧
    (cycle c4Env initState).1.auto_fan_enabled = false ∧
    (cycle c4Env initState).1.fan_on =
      decide ((⟨some "fan", some "off", some "user"⟩ :
        ControlCommand).action = some "on") :=
  C4_manual_override c4Env initState _ _ rfl rfl rfl

/-- C5: on a successful fetch with a non-empty command list, only the
first (newest) directive is interpreted — the state transition equals
both the interpretation of that single directive and the transition the
loop would take had the tail not been present. -/
theorem C5_only_newest_applied (c : ControlCommand)
    (rest : List ControlCommand) (s : State) :
    apply_latest_commands (.response 200 (.parsed (c :: rest))) s =
      apply_command c s ∧
    apply_latest_commands (.response 200 (.parsed (c :: rest))) s =
      apply_latest_commands (.response 200 (.parsed [c])) s := by
  constructor <;> simp [apply_latest_commands]

/-- C6: a transport error, a non-200 status and a malformed response
body each leave the whole control state unchanged — the command step is
a total function, so no exception reaches the loop. -/
theorem C6_fetch_failures_no_op (s : State) :
    (∀ status body, status ≠ 200 →
        apply_latest_commands (.response status body) s = s) ∧
    apply_latest_commands .transportError s = s ∧
    (∀ status, apply_latest_commands (.response status .malformed) s = s) := by
  refine ⟨?_, rfl, ?_⟩
  · intro status body h
    simp [apply_latest_commands, h]
  · intro status
    by_cases h : status = 200 <;> simp [apply_latest_commands, h]

/-- C6 witness: a 500 response with a pending directive changes
nothing. -/
theorem C6_witness :
    apply_latest_commands
      (.response 500 (.parsed [⟨some "led", some "off", none⟩]))
      initState = initState :=
  (C6_fetch_failures_no_op initState).1 500 _ (by decide)

/-- C1 counterexample: in the concrete environment the only telemetry
call of the cycle is a pm25 send that fails with a transport error, yet
the stored last-sent pm2.5 value changes from `none` to `some 7` — the
loop body assigns the stored value unconditionally after calling
`send_to_backend`, which returns nothing, so a failed send does not
leave the stored value unchanged. -/
theorem C1_counterexample :
    (cycle c1Env initState).2 =
      [⟨"pm25", SensorValue.iv 7, SendOutcome.requestError⟩] ∧
    initState.last_sent_pm2_5 = none ∧
    (cycle c1Env initState).1.last_sent_pm2_5 = some 7 := by
  decide

/-- C1 amended: the post-cycle state is identical whatever the outcomes
of the telemetry sends, and a present reading always ends the cycle
stored as the last-sent value — success and failure alike update it, so
a failed send is not retried with the identical value next cycle. -/
theorem C1_last_sent_ignores_send_outcome (env : CycleEnv) (s : State)
    (o1 o2 o3 : SendOutcome) :
    (cycle { env with outTemp := o1, outHumid := o2, outPm := o3 } s).1 =
      (cycle env s).1 ∧
    (∀ p, read_pms7003 env.serial = some p →
        (cycle env s).1.last_sent_pm2_5 = some p) ∧
    (∀ t h, read_dht11 env.dht = (some t, some h) →
        (cycle env s).1.last_sent_temp = some t ∧
        (cycle env s).1.last_sent_humid = some h) := by
  refine ⟨?_, ?_, ?_⟩
  · simp [cycle, send_metric_fst]
  · intro p hp
    rw [(cycle_last_sent env s).2.2, send_metric_fst, hp]
  · intro t h hth
    have h1 : (read_dht11 env.dht).1 = some t := by rw [hth]
    have h2 : (read_dht11 env.dht).2 = some h := by rw [hth]
    constructor
    · rw [(cycle_last_sent env s).1, send_metric_fst, h1]
    · rw [(cycle_last_sent env s).2.1, send_metric_fst, h2]

/-- C1 amended witness: the pm2.5 reading 7 is stored after the cycle
whose pm25 send failed. -/
theorem C1_witness :
    (cycle c1Env initState).1.last_sent_pm2_5 = some 7 :=
  (C1_last_sent_ignores_send_outcome c1Env initState
    .created .created .created).2.1 7 (by decide)

/-- C7: a telemetry call with a given metric name is issued during a
cycle exactly when that metric's fresh reading is present and differs
from the stored last-sent value (initially `none`, so a first reading is
always sent); an absent reading issues no call and leaves the stored
value untouched. -/
theorem C7_change_suppression (env : CycleEnv) (s : State) :
    ((∃ c ∈ (cycle env s).2, c.sensorType = "temperature") ↔
      (∃ t, (read_dht11 env.dht).1 = some t ∧
        s.last_sent_temp ≠ some t)) ∧
    ((∃ c ∈ (cycle env s).2, c.sensorType = "humidity") ↔
      (∃ h, (read_dht11 env.dht).2 = some h ∧
        s.last_sent_humid ≠ some h)) ∧
    ((∃ c ∈ (cycle env s).2, c.sensorType = "pm25") ↔
      (∃ p, read_pms7003 env.serial = some p ∧
        s.last_sent_pm2_5 ≠ some p)) ∧
    ((read_dht11 env.dht).1 = none →
      (cycle env s).1.last_sent_temp = s.last_sent_temp) ∧
    ((read_dht11 env.dht).2 = none →
      (cycle env s).1.last_sent_humid = s.last_sent_humid) ∧
    (read_pms7003 env.serial = none →
      (cycle env s).1.last_sent_pm2_5 = s.last_sent_pm2_5) := by
  refine ⟨?_, ?_, ?_, ?_, ?_, ?_⟩
  · rw [cycle_calls]
    simp only [List.mem_append, or_and_right, exists_or]
    simp [send_metric_exists_name]
  · rw [cycle_calls]
    simp only [List.mem_append, or_and_right, exists_or]
    simp [send_metric_exists_name]
  · rw [cycle_calls]
    simp only [List.mem_append, or_and_right, exists_or]
    simp [send_metric_exists_name]
  · intro h
    rw [(cycle_last_sent env s).1, send_metric_fst, h]
  · intro h
    rw [(cycle_last_sent env s).2.1, send_metric_fst, h]
  · intro h
    rw [(cycle_last_sent env s).2.2, send_metric_fst, h]

/-- C7 witness: in the concrete environment the DHT read failed, so the
stored temperature stays `none` through the cycle. -/
theorem C7_witness :
    (cycle c1Env initState).1.last_sent_temp = none :=
  (C7_change_suppression c1Env initState).2.2.2.1 (by decide)

/-- C10: every telemetry call of every cycle carries one of the metric
names `temperature`, `humidity`, `pm25`, and the calls of a cycle do not
depend on the binary gas reading — `gasDigital` is never reported, and
the state holds no last-sent entry for it. -/
theorem C10_gas_never_reported (env : CycleEnv) (s : State) (g : Bool) :
    (∀ c ∈ (cycle env s).2,
        c.sensorType = "temperature" ∨ c.sensorType = "humidity" ∨
          c.sensorType = "pm25") ∧
    (cycle { env with gasHigh := g } s).2 = (cycle env s).2 := by
  constructor
  · intro c hc
    rw [cycle_calls] at hc
    rcases List.mem_append.mp hc with hc' | hc'
    · rcases List.mem_append.mp hc' with hc'' | hc''
      · exact Or.inl (send_metric_sensorType _ _ _ _ _ c hc'')
      · exact Or.inr (Or.inl (send_metric_sensorType _ _ _ _ _ c hc''))
    · exact Or.inr (Or.inr (send_metric_sensorType _ _ _ _ _ c hc'))
  · rw [cycle_calls, cycle_calls]

/-- C10 witness: the single call of the concrete cycle carries the
metric name `pm25`. -/
theorem C10_witness :
    (⟨"pm25", SensorValue.iv 7, SendOutcome.requestError⟩ :
        TelemetryCall).sensorType = "temperature" ∨
    (⟨"pm25", SensorValue.iv 7, SendOutcome.requestError⟩ :
        TelemetryCall).sensorType = "humidity" ∨
    (⟨"pm25", SensorValue.iv 7, SendOutcome.requestError⟩ :
        TelemetryCall).sensorType = "pm25" :=
  (C10_gas_never_reported c1Env initState true).1 _ (by decide)

end RaspberryPi
